import Mathlib

/-!
Shallow embedding of the "Simon Says" game session engine of this
repository (`src/game.py`, plus the start-command guard of `src/app.py`),
and proofs of the specification's claims about it.

Conventions of the embedding:
* Python string states `'IDLE' | 'SHOWING' | 'PLAYER_TURN' | 'GAME_OVER'`
  become the enumeration `GState`.
* The `threading.Timer` handle stored in `self.player_timer` is abstracted
  to `Option Unit`: only presence (`is not None`) matters to the claims.
* `random.choice(l)` (called only on non-empty `l` in the source) is
  abstracted by an arbitrary index parameter `k`, picking `l[k % len(l)]`.
* The fallible index access `self.sequence[self.player_input_index]` is
  embedded with `Except`: a Python `IndexError` becomes `Except.error`.
* The `on_player_timeout` callback is external; `handle_timeout` returns,
  alongside the new session, the number of times the callback was invoked.
-/

/-- The four game states of `game.py` (`self.state` string values). -/
inductive GState where
  | IDLE
  | SHOWING
  | PLAYER_TURN
  | GAME_OVER
deriving DecidableEq, Repr

/-- The four result strings of `Game.check_player_input`. -/
inductive InputResult where
  | INVALID
  | CORRECT
  | WRONG
  | LEVEL_COMPLETE
deriving DecidableEq, Repr

/-- The mutable fields of the `Game` class (`Game.__init__`).
`player_timer : Option Unit` abstracts the `threading.Timer` handle:
`none` is Python `None`, `some ()` is a stored timer object. -/
structure Game where
  state : GState
  available_boards : List String
  sequence : List String
  player_input_index : Nat
  player_timer : Option Unit
deriving DecidableEq, Repr

/-- The freshly constructed session (`Game.__init__`): state `IDLE`,
no boards, empty sequence, index 0, no timer. -/
def initGame : Game :=
  { state := GState.IDLE
    available_boards := []
    sequence := []
    player_input_index := 0
    player_timer := none }

/-- `Game.set_available_boards`: replaces the available-board list. -/
def set_available_boards (g : Game) (board_chip_ids : List String) : Game :=
  { g with available_boards := board_chip_ids }

/-- `Game._cancel_player_timer`: after it runs, `player_timer` is `None`
(whether or not a timer was stored; `.cancel()` on the handle is an
external effect with no bearing on the session fields). -/
def cancel_player_timer (g : Game) : Game :=
  { g with player_timer := none }

/-- Models `random.choice(l)` on a non-empty list `l`: the random draw is
abstracted as an arbitrary natural `k`, and the chosen element is
`l[k % len(l)]` (an element of `l` whenever `l` is non-empty). -/
def random_choice (l : List String) (k : Nat) : String :=
  l.getD (k % l.length) ""

/-- `Game.next_level`: with an empty pool, sets state to `GAME_OVER` and
returns (no other mutation); otherwise appends one drawn board id to the
sequence, resets the input index to 0, sets state `SHOWING`, and cancels
any timer. `k` abstracts the random draw. -/
def next_level (g : Game) (k : Nat) : Game :=
  if g.available_boards = [] then
    { g with state := GState.GAME_OVER }
  else
    { g with
        sequence := g.sequence ++ [random_choice g.available_boards k]
        player_input_index := 0
        state := GState.SHOWING
        player_timer := none }

/-- `Game.start_new_game`: returns `false` without mutation if no boards
are available; otherwise clears the sequence, resets the index, sets state
`IDLE`, cancels any timer, calls `next_level`, and returns `true`. -/
def start_new_game (g : Game) (k : Nat) : Game × Bool :=
  if g.available_boards = [] then
    (g, false)
  else
    let g1 := cancel_player_timer
      { g with sequence := [], player_input_index := 0, state := GState.IDLE }
    (next_level g1 k, true)

/-- `Game.start_player_turn`: unconditionally sets state `PLAYER_TURN`,
resets the input index to 0, cancels any previous timer and stores a fresh
one. -/
def start_player_turn (g : Game) : Game :=
  { g with
      state := GState.PLAYER_TURN
      player_input_index := 0
      player_timer := some () }

/-- `Game.check_player_input`: outside `PLAYER_TURN` returns `INVALID`
without mutation. In `PLAYER_TURN` it evaluates
`self.sequence[self.player_input_index]` — a Python `IndexError`
(embedded as `Except.error`) when the index is out of bounds — and
otherwise compares: on a match it increments the index, then either
completes the level (cancel timer, state `IDLE`, `LEVEL_COMPLETE`) or
reports `CORRECT`; on a mismatch it sets `GAME_OVER`, cancels the timer
and reports `WRONG`. The source increments and then compares the index
with `len(self.sequence)`; since the increment leaves the length
unchanged, that test is embedded as `player_input_index + 1 = length`. -/
def check_player_input (g : Game) (chip_id : String) :
    Except String (Game × InputResult) :=
  if g.state ≠ GState.PLAYER_TURN then
    Except.ok (g, InputResult.INVALID)
  else if h : g.player_input_index < g.sequence.length then
    if chip_id = g.sequence[g.player_input_index] then
      if g.player_input_index + 1 = g.sequence.length then
        Except.ok ({ g with player_input_index := g.player_input_index + 1, state := GState.IDLE, player_timer := none }, InputResult.LEVEL_COMPLETE)
      else
        Except.ok ({ g with player_input_index := g.player_input_index + 1 }, InputResult.CORRECT)
    else
      Except.ok ({ g with state := GState.GAME_OVER, player_timer := none }, InputResult.WRONG)
  else
    Except.error "list index out of range"

/-- `Game._handle_timeout`: if the state is still `PLAYER_TURN`, sets
`GAME_OVER` and invokes the `on_player_timeout` callback; otherwise does
nothing. The second component counts callback invocations. Note the
source does not clear `player_timer` here. -/
def handle_timeout (g : Game) : Game × Nat :=
  if g.state = GState.PLAYER_TURN then
    ({ g with state := GState.GAME_OVER }, 1)
  else
    (g, 0)

/-- `Game.get_current_level`: the current level is the sequence length. -/
def get_current_level (g : Game) : Nat :=
  g.sequence.length

/-- The session-state effect of `handle_start_game` in `src/app.py`: the
start command is ignored while `state == 'PLAYER_TURN'`; otherwise
`start_new_game` runs (its boolean result is discarded by the handler,
which then launches the show-sequence task — an orchestrator effect
outside this state function). -/
def handle_start_game (g : Game) (k : Nat) : Game :=
  if g.state = GState.PLAYER_TURN then g
  else (start_new_game g k).1

/-- The public operations of the session engine, as invoked from
`app.py`. Random draws are abstracted by the `k` parameters; `timeout`
models the timer-thread callback `_handle_timeout`, which (because of the
fire/cancel race described in the spec) may run at any point. -/
inductive Op where
  | setAvailableBoards (bs : List String)
  | startNewGame (k : Nat)
  | nextLevel (k : Nat)
  | startPlayerTurn
  | checkPlayerInput (chip_id : String)
  | timeout

/-- One public operation applied to a session. A `check_player_input`
call that raises (`Except.error`) leaves the session unchanged: the
`IndexError` is raised before any field is mutated. -/
def applyOp (g : Game) : Op → Game
  | Op.setAvailableBoards bs => set_available_boards g bs
  | Op.startNewGame k => (start_new_game g k).1
  | Op.nextLevel k => next_level g k
  | Op.startPlayerTurn => start_player_turn g
  | Op.checkPlayerInput c =>
      match check_player_input g c with
      | Except.ok (g1, _) => g1
      | Except.error _ => g
  | Op.timeout => (handle_timeout g).1

/-- Session states reachable from the fresh session through any
interleaving of the public operations. -/
inductive Reachable : Game → Prop where
  | init : Reachable initGame
  | step (g : Game) (op : Op) : Reachable g → Reachable (applyOp g op)

/-- A session mid-turn on a one-element sequence: state `PLAYER_TURN`,
one connected board which is also the whole sequence, index 0, timer
running. Used as a concrete test state. -/
def gTurn : Game :=
  { state := GState.PLAYER_TURN
    available_boards := ["9072791"]
    sequence := ["9072791"]
    player_input_index := 0
    player_timer := some () }

/-- A session mid-turn on a two-element sequence. -/
def gTurn2 : Game :=
  { state := GState.PLAYER_TURN
    available_boards := ["9072791", "9132300"]
    sequence := ["9072791", "9132300"]
    player_input_index := 0
    player_timer := some () }

/-- The element drawn by `random_choice` belongs to the pool whenever the
pool is non-empty. -/
theorem random_choice_mem (l : List String) (k : Nat) (h : l ≠ []) :
    random_choice l k ∈ l := by
  have hlt : k % l.length < l.length := Nat.mod_lt _ (List.length_pos.mpr h)
  rw [random_choice, List.getD_eq_getElem l "" hlt]
  exact List.getElem_mem hlt

/-- C4: in state `PlayerTurn` with a valid input index, submitting the
expected element `sequence[k]` returns `CORRECT` and advances only the
index (state still `PLAYER_TURN`, timer untouched) when `k+1 < len`, and
returns `LEVEL_COMPLETE`, cancels the timer and moves to `IDLE` when
`k+1 = len`. -/
theorem c4_correct_inputs (g : Game) (hs : g.state = GState.PLAYER_TURN)
    (hk : g.player_input_index < g.sequence.length) :
    (g.player_input_index + 1 < g.sequence.length →
      check_player_input g (g.sequence[g.player_input_index]) =
        Except.ok ({ g with player_input_index := g.player_input_index + 1 },
          InputResult.CORRECT)) ∧
    (g.player_input_index + 1 = g.sequence.length →
      check_player_input g (g.sequence[g.player_input_index]) =
        Except.ok ({ g with player_input_index := g.player_input_index + 1, state := GState.IDLE, player_timer := none },
          InputResult.LEVEL_COMPLETE)) := by
  constructor
  · intro hlt
    simp [check_player_input, hs, hk, Nat.ne_of_lt hlt]
  · intro heq
    simp [check_player_input, hs, hk, heq]

/-- C4 witness: on the concrete two-element session, submitting the first
element of the sequence returns `CORRECT` and advances the index. -/
theorem c4_correct_inputs_witness :
    check_player_input gTurn2 "9072791" =
      Except.ok ({ gTurn2 with player_input_index := 1 },
        InputResult.CORRECT) :=
  (c4_correct_inputs gTurn2 rfl (by decide)).1 (by decide)

/-- C5: in state `PlayerTurn` with a valid input index, submitting any id
different from the expected element returns `WRONG`, sets `GAME_OVER` and
cancels the timer, leaving the index and sequence unchanged. -/
theorem c5_wrong_input (g : Game) (chip_id : String)
    (hs : g.state = GState.PLAYER_TURN)
    (hk : g.player_input_index < g.sequence.length)
    (hne : chip_id ≠ g.sequence[g.player_input_index]) :
    check_player_input g chip_id =
      Except.ok ({ g with state := GState.GAME_OVER, player_timer := none },
        InputResult.WRONG) := by
  simp [check_player_input, hs, hk, hne]

/-- C5 witness: on the concrete one-element session, submitting a
non-matching id returns `WRONG` and ends the game. -/
theorem c5_wrong_input_witness :
    check_player_input gTurn "0000000" =
      Except.ok ({ gTurn with state := GState.GAME_OVER, player_timer := none }, InputResult.WRONG) :=
  c5_wrong_input gTurn "0000000" rfl (by decide) (by decide)

/-- C6: when the timeout handler runs in state `PlayerTurn` it moves the
state to `GAME_OVER` and invokes the timeout callback exactly once; in any
other state it is a no-op (session unchanged, no callback invocation). -/
theorem c6_handle_timeout_race (g : Game) :
    (g.state = GState.PLAYER_TURN →
      handle_timeout g = ({ g with state := GState.GAME_OVER }, 1)) ∧
    (g.state ≠ GState.PLAYER_TURN → handle_timeout g = (g, 0)) := by
  constructor
  · intro h
    simp [handle_timeout, h]
  · intro h
    simp [handle_timeout, h]

/-- C6 witness: the handler at a mid-turn session ends the game with one
callback invocation; at the fresh (idle) session it does nothing. -/
theorem c6_handle_timeout_race_witness :
    handle_timeout gTurn = ({ gTurn with state := GState.GAME_OVER }, 1) ∧
    handle_timeout initGame = (initGame, 0) :=
  ⟨(c6_handle_timeout_race gTurn).1 rfl,
   (c6_handle_timeout_race initGame).2 (by decide)⟩

/-- C7: whenever the state differs from `PlayerTurn`, `check_player_input`
returns `INVALID` and the session is completely unchanged. -/
theorem c7_invalid_outside_player_turn (g : Game) (chip_id : String)
    (h : g.state ≠ GState.PLAYER_TURN) :
    check_player_input g chip_id = Except.ok (g, InputResult.INVALID) := by
  simp [check_player_input, h]

/-- C7 witness: an input to the fresh (idle) session is reported
`INVALID` with no mutation. -/
theorem c7_invalid_outside_player_turn_witness :
    check_player_input initGame "9072791" =
      Except.ok (initGame, InputResult.INVALID) :=
  c7_invalid_outside_player_turn initGame "9072791" (by decide)

/-- C8: with an empty available-board pool, `start_new_game` returns
`false` and mutates nothing at all. -/
theorem c8_start_new_game_empty_pool (g : Game) (k : Nat)
    (h : g.available_boards = []) :
    start_new_game g k = (g, false) := by
  simp [start_new_game, h]

/-- C8 witness: on the fresh session (empty pool, state `IDLE`, empty
sequence), `start_new_game` returns `false` and leaves it unchanged. -/
theorem c8_start_new_game_empty_pool_witness :
    start_new_game initGame 0 = (initGame, false) :=
  c8_start_new_game_empty_pool initGame 0 rfl

/-- C10: `check_player_input` never modifies the sequence or the
available-board pool, in any branch; its only possible effects are on
`player_input_index`, `state` and `player_timer`. -/
theorem c10_check_player_input_frame (g : Game) (chip_id : String)
    (g1 : Game) (r : InputResult)
    (h : check_player_input g chip_id = Except.ok (g1, r)) :
    g1.sequence = g.sequence ∧ g1.available_boards = g.available_boards := by
  unfold check_player_input at h
  split at h
  · cases h
    exact ⟨rfl, rfl⟩
  · split at h
    · split at h
      · split at h
        · cases h
          exact ⟨rfl, rfl⟩
        · cases h
          exact ⟨rfl, rfl⟩
      · cases h
        exact ⟨rfl, rfl⟩
    · cases h

/-- C10 witness: the level-completing input on the concrete one-element
session leaves the sequence and the pool unchanged. -/
theorem c10_check_player_input_frame_witness :
    ({ gTurn with player_input_index := 1, state := GState.IDLE, player_timer := none } : Game).sequence = gTurn.sequence ∧
    ({ gTurn with player_input_index := 1, state := GState.IDLE, player_timer := none } : Game).available_boards = gTurn.available_boards :=
  c10_check_player_input_frame gTurn "9072791" _
    InputResult.LEVEL_COMPLETE rfl

/-- C3 counterexample: on the fresh session the available-board pool is
empty, and calling `next_level` does not grow the sequence at all (it
transitions to `GAME_OVER` instead), so "every call to `next_level()`
increases `len(sequence)` by exactly 1" fails. -/
theorem c3_counterexample :
    (next_level initGame 0).sequence.length ≠
      initGame.sequence.length + 1 := by
  decide

/-- C3 (amended): for every call to `next_level` with a non-empty
available-board pool, the sequence grows by exactly one appended element,
that element is a member of the pool, and `player_input_index` is reset
to 0. (With an empty pool, `next_level` leaves the sequence and index
unchanged and transitions to `GAME_OVER`.) -/
theorem c3_next_level_grows_amended (g : Game) (k : Nat)
    (h : g.available_boards ≠ []) :
    (next_level g k).sequence = g.sequence ++ [random_choice g.available_boards k] ∧
    (next_level g k).sequence.length = g.sequence.length + 1 ∧
    random_choice g.available_boards k ∈ g.available_boards ∧
    (next_level g k).player_input_index = 0 := by
  refine ⟨?_, ?_, random_choice_mem g.available_boards k h, ?_⟩ <;>
    simp [next_level, h]

/-- C3 witness: advancing the concrete mid-turn session (pool of one
board) appends that board, grows the sequence from 1 to 2, and resets the
index. -/
theorem c3_next_level_grows_amended_witness :
    (next_level gTurn 0).sequence = gTurn.sequence ++ [random_choice gTurn.available_boards 0] ∧
    (next_level gTurn 0).sequence.length = gTurn.sequence.length + 1 ∧
    random_choice gTurn.available_boards 0 ∈ gTurn.available_boards ∧
    (next_level gTurn 0).player_input_index = 0 :=
  c3_next_level_grows_amended gTurn 0 (by decide)

/-- C9 counterexample: on a mid-turn session with a non-empty pool,
`Game.start_new_game` is not a no-op returning false — it returns `true`
and resets the session (the in-progress guard lives in `app.py`, not in
`Game.start_new_game`). -/
theorem c9_counterexample :
    (start_new_game gTurn 0).2 = true ∧ (start_new_game gTurn 0).1 ≠ gTurn := by
  decide

/-- C9 (amended): the benign no-op for a start command during a turn is
implemented by the app-level handler, not by `Game.start_new_game`: while
the state is `PlayerTurn`, `handle_start_game` leaves the session
(state, sequence, input index) completely unchanged and never calls into
`start_new_game`; `Game.start_new_game` itself, given a non-empty pool,
returns `true` and resets the session regardless of the current state. -/
theorem c9_start_guard_amended (g : Game) (k : Nat)
    (h : g.state = GState.PLAYER_TURN) :
    handle_start_game g k = g ∧
    (g.available_boards ≠ [] → (start_new_game g k).2 = true) := by
  constructor
  · simp [handle_start_game, h]
  · intro hb
    simp [start_new_game, hb]

/-- C9 witness: at the concrete mid-turn session, the app-level handler
changes nothing while `Game.start_new_game` would return `true`. -/
theorem c9_start_guard_amended_witness :
    handle_start_game gTurn 0 = gTurn ∧ (start_new_game gTurn 0).2 = true :=
  ⟨(c9_start_guard_amended gTurn 0 rfl).1,
   (c9_start_guard_amended gTurn 0 rfl).2 (by decide)⟩

/-- C2: the state "`PLAYER_TURN` with an empty sequence" is reachable
through the public interface (calling `start_player_turn` on the fresh
session — in the running app this happens when the start handler runs
with an empty pool: `start_new_game` returns false but the show-sequence
task still calls `start_player_turn`), and there `check_player_input`
evaluates `self.sequence[0]` out of bounds: a Python `IndexError`
(`Except.error`), not one of the four documented status values. -/
theorem c2_check_player_input_raises :
    Reachable (start_player_turn initGame) ∧
    check_player_input (start_player_turn initGame) "9072791" =
      Except.error "list index out of range" := by
  constructor
  · exact Reachable.step initGame Op.startPlayerTurn Reachable.init
  · rfl

/-- A concrete run: connect one board, start a game, open the player
turn, then let the turn deadline fire. After `_handle_timeout` the state
is `GAME_OVER` but the timer handle is still stored. -/
def gTimedOut : Game :=
  applyOp
    (applyOp
      (applyOp
        (applyOp initGame (Op.setAvailableBoards ["9072791"]))
        (Op.startNewGame 0))
      Op.startPlayerTurn)
    Op.timeout

/-- C1 counterexample: a reachable state in which `player_timer` is set
although the state is not `PLAYER_TURN` — `_handle_timeout` transitions to
`GAME_OVER` without clearing `player_timer`, so the claimed
"timer set iff state = PlayerTurn" invariant fails. -/
theorem c1_counterexample :
    Reachable gTimedOut ∧ gTimedOut.player_timer ≠ none ∧
      gTimedOut.state ≠ GState.PLAYER_TURN := by
  refine ⟨?_, by decide, by decide⟩
  exact Reachable.step _ _ (Reachable.step _ _ (Reachable.step _ _
    (Reachable.step _ _ Reachable.init)))

/-- Every public operation preserves the (amended) timer/state relation:
the timer is set whenever the state is `PLAYER_TURN`, and a set timer
implies the state is `PLAYER_TURN` or `GAME_OVER`. -/
theorem timer_state_applyOp (g : Game) (op : Op)
    (h1 : g.state = GState.PLAYER_TURN → g.player_timer ≠ none)
    (h2 : g.player_timer ≠ none →
      g.state = GState.PLAYER_TURN ∨ g.state = GState.GAME_OVER) :
    ((applyOp g op).state = GState.PLAYER_TURN →
      (applyOp g op).player_timer ≠ none) ∧
    ((applyOp g op).player_timer ≠ none →
      (applyOp g op).state = GState.PLAYER_TURN ∨
      (applyOp g op).state = GState.GAME_OVER) := by
  cases op with
  | setAvailableBoards bs => exact ⟨h1, h2⟩
  | startNewGame k =>
      by_cases hb : g.available_boards = []
      · simp only [applyOp, start_new_game, if_pos hb]
        exact ⟨h1, h2⟩
      · simp [applyOp, start_new_game, next_level, hb, cancel_player_timer]
  | nextLevel k =>
      by_cases hb : g.available_boards = []
      · simp [applyOp, next_level, hb]
      · simp [applyOp, next_level, hb]
  | startPlayerTurn =>
      simp [applyOp, start_player_turn]
  | checkPlayerInput c =>
      by_cases hst : g.state = GState.PLAYER_TURN
      · by_cases hk : g.player_input_index < g.sequence.length
        · by_cases hc : c = g.sequence[g.player_input_index]
          · by_cases hlast : g.player_input_index + 1 = g.sequence.length
            · simp [applyOp, check_player_input, hst, hk, hc, hlast]
            · simp only [applyOp, check_player_input, hst, hk, hc, hlast]
              simpa [hst] using h1 hst
          · simp [applyOp, check_player_input, hst, hk, hc]
        · simp only [applyOp, check_player_input, hst, hk]
          simpa using ⟨h1, h2⟩
      · have hfix : applyOp g (Op.checkPlayerInput c) = g := by
          simp [applyOp, check_player_input, hst]
        rw [hfix]
        exact ⟨h1, h2⟩
  | timeout =>
      by_cases hst : g.state = GState.PLAYER_TURN
      · simp [applyOp, handle_timeout, hst]
      · simp only [applyOp, handle_timeout, if_neg hst]
        exact ⟨h1, h2⟩

/-- C1 (amended): in every reachable session state, the turn-deadline
timer handle is set whenever the state is `PLAYER_TURN`; conversely a set
handle only guarantees the state is `PLAYER_TURN` or `GAME_OVER` — the
full "iff `PLAYER_TURN`" of the claim fails because `_handle_timeout`
(and `next_level` on an emptied pool) move to `GAME_OVER` without
clearing the handle. -/
theorem c1_timer_player_turn_amended (g : Game) (h : Reachable g) :
    (g.state = GState.PLAYER_TURN → g.player_timer ≠ none) ∧
    (g.player_timer ≠ none →
      g.state = GState.PLAYER_TURN ∨ g.state = GState.GAME_OVER) := by
  induction h with
  | init => exact ⟨by decide, by decide⟩
  | step g op hg ih => exact timer_state_applyOp g op ih.1 ih.2

/-- C1 witness: the amended invariant instantiated at the fresh session. -/
theorem c1_timer_player_turn_amended_witness :
    (initGame.state = GState.PLAYER_TURN → initGame.player_timer ≠ none) ∧
    (initGame.player_timer ≠ none →
      initGame.state = GState.PLAYER_TURN ∨
      initGame.state = GState.GAME_OVER) :=
  c1_timer_player_turn_amended initGame Reachable.init
